import Mathlib

/-!
# Verification of the rust-landlock compatibility core

This file gives a shallow embedding of the compatibility-negotiation core of
the rust-landlock crate (files `src/compat.rs` and `src/lib.rs`) and proves
the specification claims about it.

Modelling conventions:
* Rust enums become Lean inductives with the same constructor names.
* Methods that mutate `&mut self` become pure functions returning the new value.
* The opaque syscall boundary (`landlock_create_ruleset`, `landlock_add_rule`,
  `landlock_restrict_self`, `prctl`) is modelled by oracle parameters: an
  `Option Error` that is `none` on syscall success and `some e` when the
  syscall fails with OS error `e`, or an `Except Error Ruleset` for the
  ruleset-creation call.
-/

namespace Landlock

/-- Landlock ABI versions (`src/compat.rs`, `enum ABI`). -/
inductive ABI
  | Unsupported
  | V1
  | V2
  | V3
deriving DecidableEq

/-- `ABI::from` (`src/compat.rs` lines 64-74).  The source match is
`n if n <= 0 => Unsupported, 1 => V1, 2 => V2, _ => V3`.
(Named `fromRaw` because `from` is a Lean keyword.) -/
def ABI.fromRaw (value : Int) : ABI :=
  if value ≤ 0 then ABI.Unsupported
  else if value = 1 then ABI.V1
  else if value = 2 then ABI.V2
  else ABI.V3

/-- `enum CompatState` (`src/compat.rs` lines 176-187). -/
inductive CompatState
  | Init
  | Full
  | Partial
  | No
  | Dummy
deriving DecidableEq, Fintype

/-- `CompatState::update` (`src/compat.rs` lines 189-200), with the
`&mut self` mutation modelled by returning the new state. -/
def CompatState.update (self other : CompatState) : CompatState :=
  match self, other with
  | CompatState.Init, other => other
  | CompatState.Dummy, _ => CompatState.Dummy
  | _, CompatState.Dummy => CompatState.Dummy
  | CompatState.No, CompatState.No => CompatState.No
  | CompatState.Full, CompatState.Full => CompatState.Full
  | _, _ => CompatState.Partial

/-- `enum CompatLevel` (`src/compat.rs` lines 450-467); the Rust type derives
`Ord` with declaration order `BestEffort < SoftRequirement < HardRequirement`. -/
inductive CompatLevel
  | BestEffort
  | SoftRequirement
  | HardRequirement
deriving DecidableEq, Fintype

/-- Rank of a `CompatLevel`, mirroring the derived Rust `Ord`. -/
def CompatLevel.toNat : CompatLevel → Nat
  | CompatLevel.BestEffort => 0
  | CompatLevel.SoftRequirement => 1
  | CompatLevel.HardRequirement => 2

instance : LE CompatLevel := ⟨fun a b => a.toNat ≤ b.toNat⟩

instance (a b : CompatLevel) : Decidable (a ≤ b) :=
  inferInstanceAs (Decidable (a.toNat ≤ b.toNat))

/-- Rust's `Ord::max`: returns `other` when `self <= other`, else `self`. -/
instance : Max CompatLevel := ⟨fun a b => if a.toNat ≤ b.toNat then b else a⟩

/-- `impl From<Option<CompatLevel>> for CompatLevel` (`src/compat.rs`
lines 469-476): `None` maps to the default (`BestEffort`). -/
def CompatLevel.ofOption (opt : Option CompatLevel) : CompatLevel :=
  match opt with
  | none => CompatLevel.BestEffort
  | some level => level

/-- The blanket `TailoredCompatLevel` implementation for `Compatible` types
(`src/compat.rs` lines 490-508): an object carrying its own optional level
`ownLevel` combines it with the parent level by taking the most constrained
(maximum) one. -/
def tailored_compat_level (ownLevel : Option CompatLevel)
    (parent_level : CompatLevel) : CompatLevel :=
  match ownLevel with
  | none => parent_level
  | some level => max parent_level level

/-- `enum CompatResult` (`src/compat.rs` lines 551-562), abstracted over the
object type `T` and the compat-error type `E`. -/
inductive CompatResult (T E : Type)
  | Full (t : T)
  | Partial (t : T) (e : E)
  | No (e : E)

/-- `TryCompat::try_compat` (`src/compat.rs` lines 592-645).  The two trait
methods it dispatches to are passed as function parameters:
`try_compat_children` (which may consume and mutate the compat state) and
`try_compat_inner`.  The `&mut CompatState` argument is threaded explicitly,
and the `Result` return is an `Except` paired with the final state. -/
def try_compat {T E : Type}
    (ownLevel : Option CompatLevel)
    (try_compat_children : ABI → CompatLevel → CompatState →
      Except E (Option T) × CompatState)
    (try_compat_inner : T → ABI → Except E (CompatResult T E))
    (abi : ABI) (parent_level : CompatLevel) (compat_state : CompatState) :
    Except E (Option T) × CompatState :=
  let compat_level := tailored_compat_level ownLevel parent_level
  match try_compat_children abi compat_level compat_state with
  | (Except.error e, st) => (Except.error e, st)
  | (Except.ok none, st) => (Except.ok none, st)
  | (Except.ok (some new_self), st) =>
    match try_compat_inner new_self abi with
    | Except.ok (CompatResult.Full ns) =>
        (Except.ok (some ns), st.update CompatState.Full)
    | Except.ok (CompatResult.Partial ns err) =>
        match compat_level with
        | CompatLevel.BestEffort =>
            (Except.ok (some ns), st.update CompatState.Partial)
        | CompatLevel.SoftRequirement =>
            (Except.ok none, st.update CompatState.Dummy)
        | CompatLevel.HardRequirement =>
            (Except.error err, st.update CompatState.Dummy)
    | Except.ok (CompatResult.No err) =>
        match compat_level with
        | CompatLevel.BestEffort =>
            (Except.ok none, st.update CompatState.No)
        | CompatLevel.SoftRequirement =>
            (Except.ok none, st.update CompatState.Dummy)
        | CompatLevel.HardRequirement =>
            (Except.error err, st.update CompatState.Dummy)
    | Except.error e => (Except.error e, st.update CompatState.Dummy)

/-! ## Helper lemmas about `CompatState.update` -/

/-- `update` right-commutes on arguments other than `Init`.  It does not
right-commute in general: `(Init.update Init).update Full = Full` while
`(Init.update Full).update Init = Partial`. -/
theorem update_right_comm (z x y : CompatState) (hx : x ≠ CompatState.Init)
    (hy : y ≠ CompatState.Init) :
    (z.update x).update y = (z.update y).update x := by
  revert z x y
  decide

theorem update_dummy_right (s : CompatState) :
    CompatState.update s CompatState.Dummy = CompatState.Dummy := by
  cases s <;> rfl

theorem update_dummy_left (s : CompatState) :
    CompatState.update CompatState.Dummy s = CompatState.Dummy := by
  cases s <;> rfl

theorem foldl_update_dummy (l : List CompatState) :
    l.foldl CompatState.update CompatState.Dummy = CompatState.Dummy := by
  induction l with
  | nil => rfl
  | cons a l ih => rw [List.foldl_cons, update_dummy_left]; exact ih

/-! ## Claims C1, C3, C4, C5 -/

/-- C1: for every ordered pair `(current, incoming)` of the five
`CompatState` values, `CompatState::update` yields: `incoming` when
`current` is `Init`; `Dummy` whenever either side is `Dummy`; `No` when both
sides are `No`; `Full` when both sides are `Full`; and `Partial` in every
other combination. -/
theorem claim_C1_update_table (current incoming : CompatState) :
    CompatState.update current incoming =
      (if current = CompatState.Init then incoming
       else if current = CompatState.Dummy ∨ incoming = CompatState.Dummy then
         CompatState.Dummy
       else if current = CompatState.No ∧ incoming = CompatState.No then
         CompatState.No
       else if current = CompatState.Full ∧ incoming = CompatState.Full then
         CompatState.Full
       else CompatState.Partial) := by
  cases current <;> cases incoming <;> rfl

/-- Counterexample to C3 as stated: the sequences `[Init, Full]` and
`[Full, Init]` hold the same multiset of `CompatState` values, yet folding
them into the accumulator `Init` with `CompatState.update` yields `Full`
for the first and `Partial` for the second. -/
theorem claim_C3_counterexample :
    [CompatState.Init, CompatState.Full].Perm [CompatState.Full, CompatState.Init]
    ∧ [CompatState.Init,
        CompatState.Full].foldl CompatState.update CompatState.Init =
        CompatState.Full
    ∧ [CompatState.Full,
        CompatState.Init].foldl CompatState.update CompatState.Init =
        CompatState.Partial :=
  ⟨List.Perm.swap _ _ _, rfl, rfl⟩

/-- C3 (amended): for every finite sequence of per-step outcome values other
than `Init` — the negotiation protocol only ever merges `Full`, `Partial`,
`No` or `Dummy` into the accumulator — the final accumulator state depends
only on the multiset of values in the sequence and not on their order; and
for arbitrary sequences (`Init` allowed), any occurrence of `Dummy` anywhere
forces the final state to `Dummy`. -/
theorem claim_C3_fold_multiset :
    (∀ (s : CompatState) (l₁ l₂ : List CompatState),
        CompatState.Init ∉ l₁ → l₁.Perm l₂ →
        l₁.foldl CompatState.update s = l₂.foldl CompatState.update s)
    ∧ (∀ (s : CompatState) (l : List CompatState), CompatState.Dummy ∈ l →
        l.foldl CompatState.update s = CompatState.Dummy) := by
  constructor
  · intro s l₁ l₂ hini h
    exact h.foldl_eq'
      (fun x hx y hy z =>
        update_right_comm z x y (fun hc => hini (hc ▸ hx))
          (fun hc => hini (hc ▸ hy))) s
  · intro s l h
    induction l generalizing s with
    | nil => cases h
    | cons a l ih =>
      rcases List.mem_cons.mp h with h1 | h2
      · rw [List.foldl_cons, ← h1, update_dummy_right, foldl_update_dummy]
      · rw [List.foldl_cons]
        exact ih _ h2

/-- Witness for the amended C3 at concrete inputs: the fold over `[Full, No]`
equals the fold over the permuted `[No, Full]`, and a fold over a list
containing `Dummy` ends in `Dummy`. -/
theorem claim_C3_fold_multiset_witness :
    [CompatState.Full, CompatState.No].foldl CompatState.update CompatState.Init =
      [CompatState.No, CompatState.Full].foldl CompatState.update CompatState.Init
    ∧ [CompatState.Dummy, CompatState.Full].foldl CompatState.update CompatState.Full =
      CompatState.Dummy :=
  ⟨claim_C3_fold_multiset.1 CompatState.Init _ _ (by decide) (List.Perm.swap _ _ _),
   claim_C3_fold_multiset.2 CompatState.Full _ (by decide)⟩

/-- C4: `ABI::from` maps every value ≤ 0 to `Unsupported`, maps 1 to `V1`
and 2 to `V2`, maps every larger integer to the greatest known version `V3`;
for the greatest known version number 3, `from(4) = from(3)`; and it never
maps a positive value to `Unsupported`. -/
theorem claim_C4_abi_from :
    (∀ n : Int, n ≤ 0 → ABI.fromRaw n = ABI.Unsupported)
    ∧ ABI.fromRaw 1 = ABI.V1
    ∧ ABI.fromRaw 2 = ABI.V2
    ∧ (∀ n : Int, 2 < n → ABI.fromRaw n = ABI.V3)
    ∧ ABI.fromRaw 4 = ABI.fromRaw 3
    ∧ (∀ n : Int, 0 < n → ABI.fromRaw n ≠ ABI.Unsupported) := by
  refine ⟨?_, rfl, rfl, ?_, rfl, ?_⟩
  · intro n h
    simp [ABI.fromRaw, h]
  · intro n h
    rw [ABI.fromRaw, if_neg (by omega), if_neg (by omega), if_neg (by omega)]
  · intro n h
    rw [ABI.fromRaw, if_neg (by omega)]
    split
    · exact fun hc => ABI.noConfusion hc
    split
    · exact fun hc => ABI.noConfusion hc
    · exact fun hc => ABI.noConfusion hc

/-- Witness for C4 at concrete inputs. -/
theorem claim_C4_abi_from_witness :
    ABI.fromRaw (-38) = ABI.Unsupported
    ∧ ABI.fromRaw 9 = ABI.V3
    ∧ ABI.fromRaw 3 ≠ ABI.Unsupported :=
  ⟨claim_C4_abi_from.1 (-38) (by decide),
   claim_C4_abi_from.2.2.2.1 9 (by decide),
   claim_C4_abi_from.2.2.2.2.2 3 (by decide)⟩

/-- C5: `tailored_compat_level` returns `max parent own` when the object
carries its own level, and the parent level (equivalently
`max parent BestEffort`) when it does not; `HardRequirement` on either side
forces `HardRequirement`; and a child's own level is never loosened. -/
theorem claim_C5_tailored_level (parent_level : CompatLevel)
    (ownLevel : Option CompatLevel) :
    tailored_compat_level ownLevel parent_level =
      max parent_level (CompatLevel.ofOption ownLevel)
    ∧ (ownLevel = none →
        tailored_compat_level ownLevel parent_level = parent_level)
    ∧ ((parent_level = CompatLevel.HardRequirement ∨
        ownLevel = some CompatLevel.HardRequirement) →
        tailored_compat_level ownLevel parent_level =
          CompatLevel.HardRequirement)
    ∧ (∀ own, ownLevel = some own →
        own.toNat ≤ (tailored_compat_level ownLevel parent_level).toNat) := by
  revert parent_level ownLevel
  decide

/-- Witness for C5 at concrete inputs: a hard-requirement child under a
best-effort parent stays hard, an object with no own level inherits the
parent level, and the child's own level is a lower bound. -/
theorem claim_C5_tailored_level_witness :
    tailored_compat_level (some CompatLevel.HardRequirement)
      CompatLevel.BestEffort = CompatLevel.HardRequirement
    ∧ tailored_compat_level none CompatLevel.SoftRequirement =
      CompatLevel.SoftRequirement
    ∧ CompatLevel.toNat CompatLevel.HardRequirement ≤
      (tailored_compat_level (some CompatLevel.HardRequirement)
        CompatLevel.BestEffort).toNat :=
  ⟨(claim_C5_tailored_level CompatLevel.BestEffort
      (some CompatLevel.HardRequirement)).2.2.1 (Or.inr rfl),
   (claim_C5_tailored_level CompatLevel.SoftRequirement none).2.1 rfl,
   (claim_C5_tailored_level CompatLevel.BestEffort
      (some CompatLevel.HardRequirement)).2.2.2 CompatLevel.HardRequirement rfl⟩

/-- C2: in `TryCompat::try_compat`, once the effective level has been
computed by `tailored_compat_level` and the children step has returned a
usable value `n` (leaving the state at `st`), the result of
`try_compat_inner` is dispatched as follows: `Full v` updates the state
with `Full` and returns `Ok (some v)` regardless of level; `Partial v e`
under `BestEffort` updates with `Partial` and returns `Ok (some v)`, under
`SoftRequirement` updates with `Dummy` and returns `Ok none`, under
`HardRequirement` updates with `Dummy` and returns `Err e`; `No e` under
`BestEffort` updates with `No` and returns `Ok none`, under
`SoftRequirement` updates with `Dummy` and returns `Ok none`, under
`HardRequirement` updates with `Dummy` and returns `Err e`. -/
theorem claim_C2_try_compat_dispatch {T E : Type}
    (ownLevel : Option CompatLevel)
    (children : ABI → CompatLevel → CompatState →
      Except E (Option T) × CompatState)
    (inner : T → ABI → Except E (CompatResult T E))
    (abi : ABI) (parent_level : CompatLevel) (s0 st : CompatState) (n : T)
    (hchildren :
      children abi (tailored_compat_level ownLevel parent_level) s0 =
        (Except.ok (some n), st)) :
    (∀ v, inner n abi = Except.ok (CompatResult.Full v) →
        try_compat ownLevel children inner abi parent_level s0 =
          (Except.ok (some v), st.update CompatState.Full))
    ∧ (∀ v e, inner n abi = Except.ok (CompatResult.Partial v e) →
        (tailored_compat_level ownLevel parent_level = CompatLevel.BestEffort →
          try_compat ownLevel children inner abi parent_level s0 =
            (Except.ok (some v), st.update CompatState.Partial))
        ∧ (tailored_compat_level ownLevel parent_level =
              CompatLevel.SoftRequirement →
          try_compat ownLevel children inner abi parent_level s0 =
            (Except.ok none, st.update CompatState.Dummy))
        ∧ (tailored_compat_level ownLevel parent_level =
              CompatLevel.HardRequirement →
          try_compat ownLevel children inner abi parent_level s0 =
            (Except.error e, st.update CompatState.Dummy)))
    ∧ (∀ e, inner n abi = Except.ok (CompatResult.No e) →
        (tailored_compat_level ownLevel parent_level = CompatLevel.BestEffort →
          try_compat ownLevel children inner abi parent_level s0 =
            (Except.ok none, st.update CompatState.No))
        ∧ (tailored_compat_level ownLevel parent_level =
              CompatLevel.SoftRequirement →
          try_compat ownLevel children inner abi parent_level s0 =
            (Except.ok none, st.update CompatState.Dummy))
        ∧ (tailored_compat_level ownLevel parent_level =
              CompatLevel.HardRequirement →
          try_compat ownLevel children inner abi parent_level s0 =
            (Except.error e, st.update CompatState.Dummy))) := by
  refine ⟨?_, ?_, ?_⟩
  · intro v hinner
    simp only [try_compat, hchildren, hinner]
  · intro v e hinner
    refine ⟨?_, ?_, ?_⟩ <;> intro hlevel <;> rw [hlevel] at hchildren <;>
      simp only [try_compat, hlevel, hchildren, hinner]
  · intro e hinner
    refine ⟨?_, ?_, ?_⟩ <;> intro hlevel <;> rw [hlevel] at hchildren <;>
      simp only [try_compat, hlevel, hchildren, hinner]

/-- Witness for C2 at concrete inputs: with no own level, a `BestEffort`
parent, a children step that passes the object through unchanged, and an
inner step reporting full compatibility, `try_compat` returns the object
and merges `Full` into the state. -/
theorem claim_C2_try_compat_dispatch_witness :
    try_compat (T := Nat) (E := Nat) none
      (fun _ _ s => (Except.ok (some 7), s))
      (fun t _ => Except.ok (CompatResult.Full t))
      ABI.V1 CompatLevel.BestEffort CompatState.Init =
      (Except.ok (some 7), CompatState.Init.update CompatState.Full) :=
  (claim_C2_try_compat_dispatch none
    (fun _ _ s => (Except.ok (some 7), s))
    (fun t _ => Except.ok (CompatResult.Full t))
    ABI.V1 CompatLevel.BestEffort CompatState.Init CompatState.Init 7 rfl).1
    7 rfl

/-! ## Embedding of `src/lib.rs`: the builder chain -/

/-- Model of `std::io::Error` as used by `src/lib.rs`: either a raw OS error
code (`Error::last_os_error()`) or an error constructed by `Error::new` with
kind `InvalidData` and a message. -/
inductive Error
  | osError (code : Int)
  | invalidData (msg : String)
deriving DecidableEq

/-- `enum LastCall` (`src/lib.rs` lines 59-73). -/
inductive LastCall
  | FullSuccess
  | PartialSuccess
  | Unsupported
  | Fake
  | RuntimeError (e : Error)
deriving DecidableEq

/-- `true` exactly for `LastCall::RuntimeError(_)`. -/
def LastCall.isRuntimeErr : LastCall → Bool
  | LastCall.RuntimeError _ => true
  | _ => false

/-- `enum CompatStatus` (`src/lib.rs` lines 80-84). -/
inductive CompatStatus
  | Full
  | Partial
deriving DecidableEq

/-- `impl From<CompatStatus> for LastCall` (`src/lib.rs` lines 98-105). -/
def CompatStatus.toLastCall : CompatStatus → LastCall
  | CompatStatus.Full => LastCall.FullSuccess
  | CompatStatus.Partial => LastCall.PartialSuccess

/-- `struct CompatBuild<T>` (`src/lib.rs` lines 75-78). -/
structure CompatBuild (T : Type) where
  status : CompatStatus
  data : T
deriving DecidableEq

/-- `struct Compat<T>(CompatObject<T>)` (`src/lib.rs` lines 46-56), with the
`CompatObject` wrapper flattened into the three fields it holds. -/
structure Compat (T : Type) where
  last : LastCall
  prev_error : Option Error
  build : Option (CompatBuild T)
deriving DecidableEq

/-- `enum ErrorThreshold` (`src/lib.rs` lines 86-96). -/
inductive ErrorThreshold
  | Runtime
  | Incompatible
  | PartiallyCompatible
deriving DecidableEq

/-- `enum RestrictionStatus` (`src/lib.rs` lines 177-188). -/
inductive RestrictionStatus
  | FullyRestricted
  | PartiallyRestricted (e : Option Error)
  | Unrestricted (e : Option Error)
deriving DecidableEq

/-- `Compat::new` (`src/lib.rs` lines 108-117). -/
def Compat.new {T : Type} (status : CompatStatus) (data : T) : Compat T :=
  { last := status.toLastCall
    prev_error := none
    build := some { status := status, data := data } }

/-- `Compat::set_last_call_status` (`src/lib.rs` lines 119-134): any
non-`FullSuccess` status downgrades the build status to `Partial`; the
previous last-call status, if it was a `RuntimeError`, is saved into
`prev_error`; the new status replaces `last`. -/
def Compat.set_last_call_status {T : Type} (self : Compat T)
    (status : LastCall) : Compat T :=
  let build :=
    match status with
    | LastCall.FullSuccess => self.build
    | _ => self.build.map fun b => { b with status := CompatStatus.Partial }
  let prev_error :=
    match self.last with
    | LastCall.RuntimeError e => some e
    | _ => self.prev_error
  { last := status, prev_error := prev_error, build := build }

/-- `Compat::get_last_error` (`src/lib.rs` lines 136-141). -/
def Compat.get_last_error {T : Type} (self : Compat T) : Option Error :=
  match self.last with
  | LastCall.RuntimeError e => some e
  | _ => self.prev_error

/-- `Compat::merge` (`src/lib.rs` lines 143-149). -/
def Compat.merge {T U : Type} (self : Compat T)
    (build : Option (CompatBuild U)) : Compat U :=
  { last := self.last, prev_error := self.prev_error, build := build }

/-- `Compat::into_result` (`src/lib.rs` lines 154-172).  The source
or-pattern `Unsupported | Fake` and the catch-all threshold arms are
expanded into the individual constructors they cover. -/
def Compat.into_result {T : Type} (self : Compat T)
    (threshold : ErrorThreshold) : Except Error (Compat T) :=
  match self.last with
  | LastCall.FullSuccess => Except.ok self
  | LastCall.PartialSuccess =>
    match threshold with
    | ErrorThreshold.PartiallyCompatible =>
        Except.error (Error.invalidData "Partial compatibility")
    | ErrorThreshold.Runtime => Except.ok self
    | ErrorThreshold.Incompatible => Except.ok self
  | LastCall.Unsupported =>
    match threshold with
    | ErrorThreshold.PartiallyCompatible =>
        Except.error (Error.invalidData "Incompatibility")
    | ErrorThreshold.Incompatible =>
        Except.error (Error.invalidData "Incompatibility")
    | ErrorThreshold.Runtime => Except.ok self
  | LastCall.Fake =>
    match threshold with
    | ErrorThreshold.PartiallyCompatible =>
        Except.error (Error.invalidData "Incompatibility")
    | ErrorThreshold.Incompatible =>
        Except.error (Error.invalidData "Incompatibility")
    | ErrorThreshold.Runtime => Except.ok self
  | LastCall.RuntimeError e => Except.error e

/-- `struct PathBeneath` (`src/lib.rs` lines 201-205): its
`landlock_path_beneath_attr` payload, with the `allowed_access` bitflags
modelled as a `Nat` and the parent file descriptor as an `Int`. -/
structure PathBeneath where
  allowed_access : Nat
  parent_fd : Int
deriving DecidableEq

/-- `Compat<PathBeneath>::allow_access` (`src/lib.rs` lines 229-240). -/
def Compat.allow_access (self : Compat PathBeneath) (allowed : Nat) :
    Compat PathBeneath :=
  match self.build with
  | none => self.set_last_call_status LastCall.Fake
  | some build =>
    ({ self with
        build := some { build with
          data := { build.data with allowed_access := allowed } } }
      ).set_last_call_status LastCall.FullSuccess

/-- `struct RulesetAttr` (`src/lib.rs` lines 263-265), with the bitflags
modelled as a `Nat`. -/
structure RulesetAttr where
  handled_fs : Nat
deriving DecidableEq

/-- `Compat<RulesetAttr>::handle_fs` (`src/lib.rs` lines 284-293). -/
def Compat.handle_fs (self : Compat RulesetAttr) (access : Nat) :
    Compat RulesetAttr :=
  match self.build with
  | none => self.set_last_call_status LastCall.Fake
  | some build =>
    ({ self with
        build := some { build with
          data := { build.data with handled_fs := access } } }
      ).set_last_call_status LastCall.FullSuccess

/-- `struct Ruleset` (`src/lib.rs` lines 315-318). -/
structure Ruleset where
  fd : Int
  no_new_privs : Bool
deriving DecidableEq

/-- `Compat<RulesetAttr>::create` (`src/lib.rs` lines 295-313).  The
`Ruleset::new` syscall result is an oracle parameter: `Except.ok ruleset`
when `landlock_create_ruleset` returned a valid fd, `Except.error e` when
it failed with OS error `e`. -/
def Compat.create (self : Compat RulesetAttr)
    (ruleset_new : Except Error Ruleset) : Compat Ruleset :=
  match self.build with
  | none => (self.merge none).set_last_call_status LastCall.Fake
  | some build =>
    match ruleset_new with
    | Except.ok ruleset =>
        (self.merge (some { status := build.status, data := ruleset })
          ).set_last_call_status LastCall.FullSuccess
    | Except.error e =>
        (self.merge none).set_last_call_status (LastCall.RuntimeError e)

/-- `Compat<Ruleset>::add_rule` (`src/lib.rs` lines 337-363).  The
`landlock_add_rule` syscall result is an oracle parameter: `none` when the
syscall returned 0, `some e` when it failed with OS error `e`; it is only
consulted when both the ruleset payload and the rule payload are present. -/
def Compat.add_rule {R : Type} (self : Compat Ruleset) (rule : Compat R)
    (add_rule_sys : Option Error) : Compat Ruleset :=
  match self.build with
  | none => self.set_last_call_status LastCall.Fake
  | some _ =>
    let last_call_status :=
      match rule.build with
      | none => LastCall.Unsupported
      | some rule_build =>
        match add_rule_sys with
        | none => rule_build.status.toLastCall
        | some e => LastCall.RuntimeError e
    self.set_last_call_status last_call_status

/-- `Compat<Ruleset>::set_no_new_privs` (`src/lib.rs` lines 365-374). -/
def Compat.set_no_new_privs (self : Compat Ruleset) (no_new_privs : Bool) :
    Compat Ruleset :=
  match self.build with
  | none => self.set_last_call_status LastCall.Fake
  | some build =>
    ({ self with
        build := some { build with
          data := { build.data with no_new_privs := no_new_privs } } }
      ).set_last_call_status LastCall.FullSuccess

/-- `Compat<Ruleset>::restrict_self` (`src/lib.rs` lines 376-396).  The two
syscalls are oracle parameters: `prctl` is the `prctl_set_no_new_privs`
result (consulted only when `no_new_privs` is set) and `restrict` is the
`landlock_restrict_self` result; `none` means success, `some e` failure
with OS error `e`. -/
def Compat.restrict_self (self : Compat Ruleset) (prctl : Option Error)
    (restrict : Option Error) : RestrictionStatus :=
  match self.build with
  | none => RestrictionStatus.Unrestricted self.get_last_error
  | some build =>
    match (if build.data.no_new_privs then prctl else none) with
    | some e => RestrictionStatus.Unrestricted (some e)
    | none =>
      match restrict with
      | none =>
        match build.status with
        | CompatStatus.Full => RestrictionStatus.FullyRestricted
        | CompatStatus.Partial =>
            RestrictionStatus.PartiallyRestricted self.get_last_error
      | some e => RestrictionStatus.Unrestricted (some e)

/-- The build status of a chain, if its payload is present. -/
def buildStatus {T : Type} (c : Compat T) : Option CompatStatus :=
  c.build.map CompatBuild.status

/-! ## Helper lemmas about the builder chain -/

theorem last_set_last_call_status {T : Type} (c : Compat T) (s : LastCall) :
    (c.set_last_call_status s).last = s := rfl

theorem get_last_error_step {T : Type} (c : Compat T) (s : LastCall)
    (e : Error) (hs : s.isRuntimeErr = false)
    (h : c.get_last_error = some e) :
    (c.set_last_call_status s).get_last_error = some e := by
  cases s <;> cases hl : c.last <;>
    simp_all [Compat.set_last_call_status, Compat.get_last_error,
      LastCall.isRuntimeErr]

theorem prev_error_step {T : Type} (c : Compat T) (s : LastCall) (e : Error)
    (hlast : c.last.isRuntimeErr = false) (h : c.prev_error = some e) :
    (c.set_last_call_status s).prev_error = some e := by
  cases hl : c.last <;>
    simp_all [Compat.set_last_call_status, LastCall.isRuntimeErr]

theorem foldl_get_last_error {T : Type} (l : List LastCall) (c : Compat T)
    (e : Error) (hall : ∀ s ∈ l, s.isRuntimeErr = false)
    (h : c.get_last_error = some e) :
    (l.foldl Compat.set_last_call_status c).get_last_error = some e := by
  induction l generalizing c with
  | nil => exact h
  | cons s l ih =>
    rw [List.foldl_cons]
    exact ih _ (fun x hx => hall x (List.mem_cons_of_mem _ hx))
      (get_last_error_step c s e (hall s (List.mem_cons_self _ _)) h)

theorem foldl_prev_error {T : Type} (l : List LastCall) (c : Compat T)
    (e : Error) (hall : ∀ s ∈ l, s.isRuntimeErr = false)
    (hlast : c.last.isRuntimeErr = false) (h : c.prev_error = some e) :
    (l.foldl Compat.set_last_call_status c).prev_error = some e := by
  induction l generalizing c with
  | nil => exact h
  | cons s l ih =>
    rw [List.foldl_cons]
    exact ih _ (fun x hx => hall x (List.mem_cons_of_mem _ hx))
      (by rw [last_set_last_call_status]
          exact hall s (List.mem_cons_self _ _))
      (prev_error_step c s e hlast h)

/-! ## Claims C6, C7, C8, C9, C10 -/

/-- C6: `Compat<Ruleset>::restrict_self` returns `Unrestricted` with the
last saved error (possibly none) when the chain's payload is absent; when
the payload is present it returns `Unrestricted (some e)` if the
no-new-privs attribute was requested and setting it failed with `e`, or if
the enforcement syscall failed with `e`; and on enforcement success it
returns `FullyRestricted` when the build status is `Full` and
`PartiallyRestricted` with the last saved error when it is `Partial`. -/
theorem claim_C6_restrict_self (self : Compat Ruleset)
    (prctl restrict : Option Error) :
    (self.build = none →
        self.restrict_self prctl restrict =
          RestrictionStatus.Unrestricted self.get_last_error)
    ∧ (∀ build, self.build = some build →
        (build.data.no_new_privs = true → ∀ e, prctl = some e →
            self.restrict_self prctl restrict =
              RestrictionStatus.Unrestricted (some e))
        ∧ ((build.data.no_new_privs = true → prctl = none) →
            ∀ e, restrict = some e →
            self.restrict_self prctl restrict =
              RestrictionStatus.Unrestricted (some e))
        ∧ ((build.data.no_new_privs = true → prctl = none) →
            restrict = none →
            (build.status = CompatStatus.Full →
              self.restrict_self prctl restrict =
                RestrictionStatus.FullyRestricted)
            ∧ (build.status = CompatStatus.Partial →
              self.restrict_self prctl restrict =
                RestrictionStatus.PartiallyRestricted self.get_last_error))) := by
  constructor
  · intro h
    simp [Compat.restrict_self, h]
  · intro build hb
    refine ⟨?_, ?_, ?_⟩
    · intro hn e hp
      simp [Compat.restrict_self, hb, hn, hp]
    · intro hpr e hr
      cases hn : build.data.no_new_privs with
      | true => simp [Compat.restrict_self, hb, hn, hpr hn, hr]
      | false => simp [Compat.restrict_self, hb, hn, hr]
    · intro hpr hr
      cases hn : build.data.no_new_privs with
      | true =>
        constructor <;> intro hst <;>
          simp [Compat.restrict_self, hb, hn, hpr hn, hr, hst]
      | false =>
        constructor <;> intro hst <;>
          simp [Compat.restrict_self, hb, hn, hr, hst]

/-- Witness for C6 at concrete inputs: with a present `Full` payload and
both syscalls succeeding the result is `FullyRestricted`; with a failing
prctl (no-new-privs requested) the result is `Unrestricted (some e)`. -/
theorem claim_C6_restrict_self_witness :
    (Compat.new CompatStatus.Full (Ruleset.mk 3 true)).restrict_self
        none none = RestrictionStatus.FullyRestricted
    ∧ (Compat.new CompatStatus.Full (Ruleset.mk 3 true)).restrict_self
        (some (Error.osError 1)) none =
        RestrictionStatus.Unrestricted (some (Error.osError 1)) :=
  ⟨(((claim_C6_restrict_self (Compat.new CompatStatus.Full (Ruleset.mk 3 true))
        none none).2 _ rfl).2.2 (fun _ => rfl) rfl).1 rfl,
   ((claim_C6_restrict_self (Compat.new CompatStatus.Full (Ruleset.mk 3 true))
        (some (Error.osError 1)) none).2 _ rfl).1 rfl _ rfl⟩

/-- C7: every `set_last_call_status` with a non-`FullSuccess` status on a
chain with a present payload sets the build status to `Partial`, and no
build method of the chain (`set_last_call_status`, `allow_access`,
`handle_fs`, `create`, `add_rule`, `set_no_new_privs`) ever moves the build
status from `Partial` back to `Full`. -/
theorem claim_C7_status_monotone :
    (∀ (T : Type) (c : Compat T) (status : LastCall),
        status ≠ LastCall.FullSuccess → c.build.isSome = true →
        buildStatus (c.set_last_call_status status) =
          some CompatStatus.Partial)
    ∧ (∀ (T : Type) (c : Compat T) (status : LastCall),
        buildStatus c = some CompatStatus.Partial →
        buildStatus (c.set_last_call_status status) ≠ some CompatStatus.Full)
    ∧ (∀ (c : Compat PathBeneath) (a : Nat),
        buildStatus c = some CompatStatus.Partial →
        buildStatus (c.allow_access a) ≠ some CompatStatus.Full)
    ∧ (∀ (c : Compat RulesetAttr) (a : Nat),
        buildStatus c = some CompatStatus.Partial →
        buildStatus (c.handle_fs a) ≠ some CompatStatus.Full)
    ∧ (∀ (c : Compat RulesetAttr) (sys : Except Error Ruleset),
        buildStatus c = some CompatStatus.Partial →
        buildStatus (c.create sys) ≠ some CompatStatus.Full)
    ∧ (∀ (R : Type) (c : Compat Ruleset) (rule : Compat R)
        (sys : Option Error),
        buildStatus c = some CompatStatus.Partial →
        buildStatus (c.add_rule rule sys) ≠ some CompatStatus.Full)
    ∧ (∀ (c : Compat Ruleset) (b : Bool),
        buildStatus c = some CompatStatus.Partial →
        buildStatus (c.set_no_new_privs b) ≠ some CompatStatus.Full) := by
  have hset : ∀ (T : Type) (c : Compat T) (status : LastCall),
      buildStatus c = some CompatStatus.Partial →
      buildStatus (c.set_last_call_status status) ≠ some CompatStatus.Full := by
    intro T c status h
    cases hb : c.build with
    | none => simp [buildStatus, hb] at h
    | some b =>
      have hbs : b.status = CompatStatus.Partial := by
        simpa [buildStatus, hb] using h
      cases status <;>
        simp [Compat.set_last_call_status, buildStatus, hb, hbs]
  refine ⟨?_, hset, ?_, ?_, ?_, ?_, ?_⟩
  · intro T c status hstatus hsome
    rcases Option.isSome_iff_exists.mp hsome with ⟨b, hb⟩
    cases status <;>
      first
      | exact absurd rfl hstatus
      | simp [Compat.set_last_call_status, buildStatus, hb]
  · intro c a h
    cases hb : c.build with
    | none =>
      unfold Compat.allow_access
      rw [hb]
      exact hset _ _ _ h
    | some b =>
      unfold Compat.allow_access
      rw [hb]
      refine hset _ _ _ ?_
      simpa [buildStatus, hb] using h
  · intro c a h
    cases hb : c.build with
    | none =>
      unfold Compat.handle_fs
      rw [hb]
      exact hset _ _ _ h
    | some b =>
      unfold Compat.handle_fs
      rw [hb]
      refine hset _ _ _ ?_
      simpa [buildStatus, hb] using h
  · intro c sys h
    cases hb : c.build with
    | none =>
      unfold Compat.create
      rw [hb]
      simp [Compat.merge, Compat.set_last_call_status, buildStatus]
    | some b =>
      unfold Compat.create
      rw [hb]
      cases sys with
      | ok ruleset =>
        refine hset _ _ _ ?_
        have hbs : b.status = CompatStatus.Partial := by
          simpa [buildStatus, hb] using h
        simp [Compat.merge, buildStatus, hbs]
      | error e =>
        simp [Compat.merge, Compat.set_last_call_status, buildStatus]
  · intro R c rule sys h
    cases hb : c.build with
    | none =>
      unfold Compat.add_rule
      rw [hb]
      exact hset _ _ _ h
    | some b =>
      unfold Compat.add_rule
      rw [hb]
      exact hset _ _ _ h
  · intro c b h
    cases hb : c.build with
    | none =>
      unfold Compat.set_no_new_privs
      rw [hb]
      exact hset _ _ _ h
    | some bu =>
      unfold Compat.set_no_new_privs
      rw [hb]
      refine hset _ _ _ ?_
      simpa [buildStatus, hb] using h

/-- Witness for C7 at concrete inputs: recording `Unsupported` on a chain
built with `Full` status downgrades it to `Partial`, and a subsequent
`set_no_new_privs` does not restore `Full`. -/
theorem claim_C7_status_monotone_witness :
    buildStatus (Compat.set_last_call_status
        (Compat.new CompatStatus.Full (42 : Nat)) LastCall.Unsupported) =
      some CompatStatus.Partial
    ∧ buildStatus (Compat.set_no_new_privs
        (Compat.set_last_call_status
          (Compat.new CompatStatus.Full (Ruleset.mk 3 true))
          LastCall.Unsupported) true) ≠
      some CompatStatus.Full :=
  ⟨claim_C7_status_monotone.1 Nat (Compat.new CompatStatus.Full 42)
      LastCall.Unsupported (by decide) rfl,
   claim_C7_status_monotone.2.2.2.2.2.2
      (Compat.set_last_call_status
        (Compat.new CompatStatus.Full (Ruleset.mk 3 true))
        LastCall.Unsupported) true rfl⟩

/-- C8: after a step records `RuntimeError e` as the chain's last-call
status, folding any further sequence of non-runtime-error statuses into the
chain leaves `get_last_error` returning `some e`; and as soon as at least
one later step has run, `e` sits in the chain's saved-error slot
(`prev_error`). -/
theorem claim_C8_runtime_error_preserved {T : Type} (c : Compat T)
    (e : Error) (statuses : List LastCall)
    (hall : ∀ s ∈ statuses, s.isRuntimeErr = false) :
    (statuses.foldl Compat.set_last_call_status
        (c.set_last_call_status (LastCall.RuntimeError e))).get_last_error =
      some e
    ∧ (statuses ≠ [] →
        (statuses.foldl Compat.set_last_call_status
            (c.set_last_call_status (LastCall.RuntimeError e))).prev_error =
          some e) := by
  constructor
  · exact foldl_get_last_error statuses _ e hall rfl
  · intro hne
    cases statuses with
    | nil => exact absurd rfl hne
    | cons s rest =>
      rw [List.foldl_cons]
      refine foldl_prev_error rest _ e
        (fun x hx => hall x (List.mem_cons_of_mem _ hx)) ?_ ?_
      · rw [last_set_last_call_status]
        exact hall s (List.mem_cons_self _ _)
      · simp [Compat.set_last_call_status]

/-- Witness for C8 at concrete inputs: an OS error 13 recorded as a runtime
error survives a subsequent `Unsupported` and a subsequent `FullSuccess`
step, both in `get_last_error` and in the saved-error slot. -/
theorem claim_C8_runtime_error_preserved_witness :
    ([LastCall.Unsupported, LastCall.FullSuccess].foldl
        Compat.set_last_call_status
        ((Compat.new CompatStatus.Full (0 : Nat)).set_last_call_status
          (LastCall.RuntimeError (Error.osError 13)))).get_last_error =
      some (Error.osError 13)
    ∧ ([LastCall.Unsupported, LastCall.FullSuccess].foldl
        Compat.set_last_call_status
        ((Compat.new CompatStatus.Full (0 : Nat)).set_last_call_status
          (LastCall.RuntimeError (Error.osError 13)))).prev_error =
      some (Error.osError 13) :=
  have h := claim_C8_runtime_error_preserved
    (Compat.new CompatStatus.Full (0 : Nat)) (Error.osError 13)
    [LastCall.Unsupported, LastCall.FullSuccess] (by decide)
  ⟨h.1, h.2 (by decide)⟩

/-- C9: `Compat::into_result` returns `Ok self` when the last-call status is
`FullSuccess`; on `PartialSuccess` it errors exactly under the
`PartiallyCompatible` threshold; on `Unsupported` or `Fake` it errors under
`PartiallyCompatible` and `Incompatible` and succeeds under `Runtime`; and
on `RuntimeError e` it returns `Err e` under every threshold. -/
theorem claim_C9_into_result {T : Type} (c : Compat T)
    (threshold : ErrorThreshold) :
    (c.last = LastCall.FullSuccess →
        c.into_result threshold = Except.ok c)
    ∧ (c.last = LastCall.PartialSuccess →
        (threshold = ErrorThreshold.PartiallyCompatible →
          c.into_result threshold =
            Except.error (Error.invalidData "Partial compatibility"))
        ∧ (threshold ≠ ErrorThreshold.PartiallyCompatible →
          c.into_result threshold = Except.ok c))
    ∧ ((c.last = LastCall.Unsupported ∨ c.last = LastCall.Fake) →
        ((threshold = ErrorThreshold.PartiallyCompatible ∨
            threshold = ErrorThreshold.Incompatible) →
          c.into_result threshold =
            Except.error (Error.invalidData "Incompatibility"))
        ∧ (threshold = ErrorThreshold.Runtime →
          c.into_result threshold = Except.ok c))
    ∧ (∀ e, c.last = LastCall.RuntimeError e →
        c.into_result threshold = Except.error e) := by
  cases hl : c.last <;> cases threshold <;>
    simp [Compat.into_result, hl]

/-- Witness for C9 at concrete inputs: a fully-successful chain passes the
strictest threshold, and a runtime error surfaces even under the most
lenient threshold. -/
theorem claim_C9_into_result_witness :
    (Compat.new CompatStatus.Full (0 : Nat)).into_result
        ErrorThreshold.PartiallyCompatible =
      Except.ok (Compat.new CompatStatus.Full (0 : Nat))
    ∧ ((Compat.new CompatStatus.Full (0 : Nat)).set_last_call_status
        (LastCall.RuntimeError (Error.osError 5))).into_result
        ErrorThreshold.Runtime = Except.error (Error.osError 5) :=
  ⟨(claim_C9_into_result (Compat.new CompatStatus.Full (0 : Nat))
      ErrorThreshold.PartiallyCompatible).1 rfl,
   (claim_C9_into_result
      ((Compat.new CompatStatus.Full (0 : Nat)).set_last_call_status
        (LastCall.RuntimeError (Error.osError 5)))
      ErrorThreshold.Runtime).2.2.2 (Error.osError 5) rfl⟩

/-- C10: on a ruleset chain with a present payload, `add_rule` with a rule
whose own payload is absent records `Unsupported` as the last-call status,
consults no syscall oracle (the result does not depend on it), leaves the
ruleset payload's data unchanged, and downgrades the build status to
`Partial`. -/
theorem claim_C10_add_rule_unsupported {R : Type} (self : Compat Ruleset)
    (rule : Compat R) (sc : Option Error)
    (hself : self.build.isSome = true) (hrule : rule.build = none) :
    (self.add_rule rule sc).last = LastCall.Unsupported
    ∧ (∀ sc', self.add_rule rule sc' = self.add_rule rule sc)
    ∧ (self.add_rule rule sc).build.map CompatBuild.data =
        self.build.map CompatBuild.data
    ∧ buildStatus (self.add_rule rule sc) = some CompatStatus.Partial := by
  rcases Option.isSome_iff_exists.mp hself with ⟨b, hb⟩
  refine ⟨?_, ?_, ?_, ?_⟩
  · simp [Compat.add_rule, hb, hrule, last_set_last_call_status]
  · intro sc'
    simp [Compat.add_rule, hb, hrule]
  · simp [Compat.add_rule, hb, hrule, Compat.set_last_call_status]
  · simp [Compat.add_rule, hb, hrule, Compat.set_last_call_status,
      buildStatus]

/-- Witness for C10 at concrete inputs: adding a payload-less rule to a
fully-compatible ruleset chain records `Unsupported` and downgrades the
build status to `Partial`. -/
theorem claim_C10_add_rule_unsupported_witness :
    ((Compat.new CompatStatus.Full (Ruleset.mk 3 true)).add_rule
        (Compat.mk LastCall.Fake none (none : Option (CompatBuild Nat)))
        none).last = LastCall.Unsupported
    ∧ buildStatus ((Compat.new CompatStatus.Full (Ruleset.mk 3 true)).add_rule
        (Compat.mk LastCall.Fake none (none : Option (CompatBuild Nat)))
        none) = some CompatStatus.Partial :=
  have h := claim_C10_add_rule_unsupported
    (Compat.new CompatStatus.Full (Ruleset.mk 3 true))
    (Compat.mk LastCall.Fake none (none : Option (CompatBuild Nat)))
    none rfl rfl
  ⟨h.1, h.2.2.2⟩

end Landlock
